import Mathlib

/-!
# Break-Remainder: a shallow embedding of `src/extension.ts`

This file embeds the VS Code break-reminder extension's timer/notification
state machine in Lean and proves properties of it.

Modelling conventions:
* JavaScript numbers are modelled as `ℚ` (the logic here only compares,
  multiplies and rounds; `Math.round x = ⌊x + 1/2⌋` coincides with `round`
  on `ℚ`).
* The Node timer environment is modelled explicitly: `setTimeout` appends a
  fresh `Timeout` (with a fresh id and the requested delay) to the list of
  live timeouts and returns its id; `clearTimeout i` removes the timeout
  with id `i` from the live list (a no-op on an already-fired handle); when
  a timeout fires, the runtime removes it from the live list and then runs
  the callback that the source registered for it.
* The module-level mutable variables `timer`, `currentPanelOpen`,
  `isDisabledThisSession`, `isPausedManually`, the persisted
  `globalState('workMinutes')` entry and the read-only configuration value
  `breakReminder.defaultWorkMinutes` are fields of a single `SysState`.
* Webview panels: at most one panel is open (each handler disposes its own
  panel before opening the next); `openPanel` records which one.  A panel
  can receive an arbitrary message only while it is open.  The snooze
  chooser registers no `onDidDispose` hook in the source, so a user-close
  of that panel does not reset `currentPanelOpen`; all other panels do.
* The `showInformationMessage(..., 'Выбрать перерыв')` notification is the
  boolean `notif`; clicking its button runs `showMainMenu`.
-/

namespace BreakReminder

/-- A JavaScript value as far as this extension inspects one:
a number, a string, or `undefined` (also standing for an absent field). -/
inductive JSVal : Type
  | num (q : ℚ)
  | str (s : String)
  | undef
deriving DecidableEq

/-- `typeof v === 'number'`. -/
def JSVal.isNumber : JSVal → Bool
  | .num _ => true
  | _ => false

/-- JavaScript truthiness test `!x` (negated) applied to the result of
`globalState.get('workMinutes')`: absent, `0`, `''` and `undefined` are
falsy. -/
def jsFalsy : Option JSVal → Bool
  | none => true
  | some (.num q) => q == 0
  | some (.str s) => s == ""
  | some .undef => true

/-- Which `setTimeout` call site created a timeout, i.e. which callback the
runtime will run when it fires: the work timer of `startWorkTimer` or the
snooze timer of `askSnoozeAndStart`. -/
inductive TimerKind : Type
  | work
  | snooze
deriving DecidableEq

/-- A scheduled one-shot timeout: its handle id, its callback kind and the
millisecond delay it was scheduled with. -/
structure Timeout where
  id : ℕ
  kind : TimerKind
  delayMs : ℤ
deriving DecidableEq

/-- The webview panels the extension can open. -/
inductive Panel : Type
  | mainMenu
  | breakChooser
  | breakPanel
  | snoozeChooser
  | setWorkTime
deriving DecidableEq

/-- A `postMessage` payload as inspected by the handlers: a `command`
field (absent = `none`) and a `minutes` field (absent = `.undef`). -/
structure Msg where
  command : Option String
  minutes : JSVal
deriving DecidableEq

/-- The whole mutable state of the extension process plus its timer
environment and persisted store. -/
structure SysState where
  /-- fresh-id counter of the timer environment -/
  nextId : ℕ
  /-- the live (scheduled, not yet fired or cancelled) timeouts -/
  live : List Timeout
  /-- the module-level variable `timer` (a handle id or `undefined`) -/
  handle : Option ℕ
  /-- the module-level variable `currentPanelOpen` -/
  currentPanelOpen : Bool
  /-- the module-level variable `isDisabledThisSession` -/
  isDisabledThisSession : Bool
  /-- the module-level variable `isPausedManually` -/
  isPausedManually : Bool
  /-- which webview panel is currently open, if any -/
  openPanel : Option Panel
  /-- a break notification with the 'Выбрать перерыв' button is showing -/
  notif : Bool
  /-- the persisted `globalState` entry under key `workMinutes` -/
  workMinutes : Option JSVal
  /-- the configured `breakReminder.defaultWorkMinutes` value, if set -/
  configDefault : Option ℚ
deriving DecidableEq

/-- `clearTimeout i`: remove the timeout with handle `i` from the live
set; a no-op if it already fired or was cancelled. -/
def clearTimeoutId (i : ℕ) (s : SysState) : SysState :=
  { s with live := s.live.filter (fun t => t.id != i) }

/-- The recurring statement `if (timer) { clearTimeout(timer); timer =
undefined; }`. -/
def cancelPending (s : SysState) : SysState :=
  match s.handle with
  | some i => { clearTimeoutId i s with handle := none }
  | none => s

/-- `timer = setTimeout(callback-of-kind-k, d)`: schedule a fresh timeout
and store its handle in the `timer` variable. -/
def armTimeout (k : TimerKind) (d : ℤ) (s : SysState) : SysState :=
  { s with
      live := s.live ++ [⟨s.nextId, k, d⟩]
      handle := some s.nextId
      nextId := s.nextId + 1 }

/-- `getWorkMinutes` (lines 48–61): the stored value if it is a number
`> 0`, otherwise the configured default with fallback `30`. -/
def getWorkMinutes (stored : Option JSVal) (cfg : Option ℚ) : ℚ :=
  match stored with
  | some (.num v) => if v > 0 then v else cfg.getD 30
  | _ => cfg.getD 30

/-- `getWorkMinutes(context)` read against the current state. -/
def SysState.workMinutesNow (s : SysState) : ℚ :=
  getWorkMinutes s.workMinutes s.configDefault

/-- Line 78: `Math.max(1000, Math.round(minutes * 60 * 1000))`. -/
def workDelayMs (minutes : ℚ) : ℤ :=
  max 1000 (round (minutes * 60 * 1000))

/-- Line 342: `Math.max(1000, Math.round(msg.minutes * 60 * 1000))`. -/
def snoozeDelayMs (minutes : ℚ) : ℤ :=
  max 1000 (round (minutes * 60 * 1000))

/-- `startWorkTimer` (lines 63–100): guarded by the three session flags;
cancels any pending timer, then schedules the work callback. -/
def startWorkTimer (s : SysState) : SysState :=
  if s.currentPanelOpen || s.isDisabledThisSession || s.isPausedManually then s
  else
    let s₁ := cancelPending s
    armTimeout .work (workDelayMs s₁.workMinutesNow) s₁

/-- State effect of `showMainMenu` (lines 102–164): sets both flags and
opens the main-menu panel. -/
def showMainMenuS (s : SysState) : SysState :=
  { s with
      currentPanelOpen := true
      isPausedManually := true
      openPanel := some .mainMenu }

/-- State effect of `showBreakChooser` (lines 166–209): sets only
`currentPanelOpen` and opens the chooser panel. -/
def showBreakChooserS (s : SysState) : SysState :=
  { s with currentPanelOpen := true, openPanel := some .breakChooser }

/-- State effect of `openBreakPanel` (lines 211–307): sets both flags and
opens the break countdown panel.  (The panel's title string is modelled by
`displayTitle` below.) -/
def openBreakPanelS (s : SysState) : SysState :=
  { s with
      currentPanelOpen := true
      isPausedManually := true
      openPanel := some .breakPanel }

/-- State effect of `askSnoozeAndStart` opening its panel (lines
309–336): sets only `currentPanelOpen`. -/
def askSnoozeOpenS (s : SysState) : SysState :=
  { s with currentPanelOpen := true, openPanel := some .snoozeChooser }

/-- State effect of `showSetWorkTime` opening its panel (lines 365–389):
sets only `currentPanelOpen`. -/
def showSetWorkTimeS (s : SysState) : SysState :=
  { s with currentPanelOpen := true, openPanel := some .setWorkTime }

/-- `panel.dispose()` for a panel whose `onDidDispose` hook resets
`currentPanelOpen` (main menu, break chooser, break panel, set-work-time
panel). -/
def disposeWithHook (s : SysState) : SysState :=
  { s with openPanel := none, currentPanelOpen := false }

/-- `panel.dispose()` for the snooze chooser, which registers no
`onDidDispose` hook in the source. -/
def disposeNoHook (s : SysState) : SysState :=
  { s with openPanel := none }

/-- The main-menu message handler (lines 132–159). -/
def handleMainMenuMsg (s : SysState) (m : Msg) : SysState :=
  match m.command with
  | none => s
  | some c =>
    if c == "startBreak" then
      showBreakChooserS { disposeWithHook s with currentPanelOpen := false }
    else if c == "skipBreak" then
      startWorkTimer
        { disposeWithHook s with
            currentPanelOpen := false
            isPausedManually := false }
    else if c == "snoozeBreak" then
      askSnoozeOpenS { disposeWithHook s with currentPanelOpen := false }
    else if c == "disablePlugin" then
      cancelPending
        { disposeWithHook s with
            currentPanelOpen := false
            isDisabledThisSession := true }
    else if c == "setWorkTime" then
      showSetWorkTimeS { disposeWithHook s with currentPanelOpen := false }
    else s

/-- The break-chooser message handler (lines 190–203). -/
def handleBreakChooserMsg (s : SysState) (m : Msg) : SysState :=
  match m.command with
  | none => s
  | some c =>
    if c == "breakDurationSelected" && m.minutes.isNumber then
      openBreakPanelS { disposeWithHook s with currentPanelOpen := false }
    else if c == "backToMain" then
      showMainMenuS { disposeWithHook s with currentPanelOpen := false }
    else s

/-- The break-panel message handler (lines 292–301). -/
def handleBreakPanelMsg (s : SysState) (m : Msg) : SysState :=
  match m.command with
  | none => s
  | some c =>
    if c == "breakEnded" then
      startWorkTimer
        { disposeWithHook s with
            currentPanelOpen := false
            isPausedManually := false }
    else s

/-- The snooze-chooser message handler (lines 338–362).  On
`confirmSnooze` with numeric minutes it cancels the pending timer and
schedules the snooze callback, with no guard on the session flags. -/
def handleSnoozeMsg (s : SysState) (m : Msg) : SysState :=
  match m.command with
  | none => s
  | some c =>
    if c == "confirmSnooze" && m.minutes.isNumber then
      let v : ℚ := match m.minutes with | .num q => q | _ => 0
      let s₁ := armTimeout .snooze (snoozeDelayMs v) (cancelPending s)
      { disposeNoHook s₁ with currentPanelOpen := false }
    else if c == "cancelSnooze" then
      showMainMenuS { disposeNoHook s with currentPanelOpen := false }
    else s

/-- The set-work-time message handler (lines 391–405).  Note the source
calls `startWorkTimer` while `currentPanelOpen` is still `true` (the
panel is disposed only afterwards), so that call never arms. -/
def handleSetWorkTimeMsg (s : SysState) (m : Msg) : SysState :=
  match m.command with
  | none => s
  | some c =>
    if c == "workTimeSelected" && m.minutes.isNumber then
      let s₁ := { s with workMinutes := some m.minutes }
      let s₂ := cancelPending s₁
      let s₃ := { s₂ with isPausedManually := false }
      let s₄ := startWorkTimer s₃
      showMainMenuS { disposeWithHook s₄ with currentPanelOpen := false }
    else s

/-- Body of the work timer's `setTimeout` callback (lines 81–99), run
after the runtime has removed the fired timeout from the live set: clear
the `timer` variable, then either show the notification (panel closed) or
re-show the main menu (panel open). -/
def workFireCallback (s : SysState) : SysState :=
  if (cancelPending s).currentPanelOpen = false then
    { cancelPending s with notif := true }
  else showMainMenuS (cancelPending s)

/-- Body of the snooze timer's `setTimeout` callback (lines 344–353): it
shows the notification directly, without clearing the `timer` handle. -/
def snoozeFireCallback (s : SysState) : SysState :=
  { s with notif := true }

/-- A timeout `t` fires: the runtime removes it from the live set and
runs the callback registered for it. -/
def fireStep (s : SysState) (t : Timeout) : SysState :=
  match t.kind with
  | .work => workFireCallback { s with live := s.live.erase t }
  | .snooze => snoozeFireCallback { s with live := s.live.erase t }

/-- Dispatch of a webview message to whichever panel is open. -/
def handlePanelMsg (s : SysState) (m : Msg) : SysState :=
  match s.openPanel with
  | some .mainMenu => handleMainMenuMsg s m
  | some .breakChooser => handleBreakChooserMsg s m
  | some .breakPanel => handleBreakPanelMsg s m
  | some .snoozeChooser => handleSnoozeMsg s m
  | some .setWorkTime => handleSetWorkTimeMsg s m
  | none => s

/-- The user closes the open panel with its close button: `onDidDispose`
runs for every panel except the snooze chooser, which never registered
one. -/
def userClosePanel (s : SysState) : SysState :=
  match s.openPanel with
  | some .snoozeChooser => { s with openPanel := none }
  | some _ => { s with openPanel := none, currentPanelOpen := false }
  | none => s

/-- The events the environment can deliver during a session. -/
inductive Event : Type
  | timerFire (t : Timeout)
  | notifClick
  | notifDismiss
  | panelMsg (m : Msg)
  | panelUserClose
deriving DecidableEq

/-- The (total) effect of handling one event. -/
def handleEvent (s : SysState) : Event → SysState
  | .timerFire t => fireStep s t
  | .notifClick => showMainMenuS { s with notif := false }
  | .notifDismiss => { s with notif := false }
  | .panelMsg m => handlePanelMsg s m
  | .panelUserClose => userClosePanel s

/-- When an event can actually occur: a timeout fires only while live, a
notification is clicked or dismissed only while showing, and a panel
receives messages or a user close only while open. -/
def Enabled (s : SysState) : Event → Prop
  | .timerFire t => t ∈ s.live
  | .notifClick => s.notif = true
  | .notifDismiss => s.notif = true
  | .panelMsg _ => s.openPanel.isSome
  | .panelUserClose => s.openPanel.isSome

/-- Lines 38–41 of `activate`: read the configured default (fallback
`0.166`) and initialise the store when `!stored` is truthy. -/
def activateInitStore (s : SysState) : SysState :=
  if jsFalsy s.workMinutes then
    { s with workMinutes := some (.num (s.configDefault.getD (166/1000))) }
  else s

/-- `activate` (lines 25–46): initialise `workMinutes` if the stored
value is falsy, then start the work timer unless disabled. -/
def activate (s : SysState) : SysState :=
  if (activateInitStore s).isDisabledThisSession = false then
    startWorkTimer (activateInitStore s)
  else activateInitStore s

/-- `deactivate` (lines 412–425): clear the timer, then reset
`currentPanelOpen` and `isDisabledThisSession` (the source leaves
`isPausedManually` untouched). -/
def deactivate (s : SysState) : SysState :=
  { cancelPending s with
      currentPanelOpen := false
      isDisabledThisSession := false }

/-- The state of a fresh process before `activate` runs: all module-level
variables at their initialisers, parametrised by the persisted store and
the configuration. -/
def initState (wm : Option JSVal) (cfg : Option ℚ) : SysState :=
  { nextId := 0
    live := []
    handle := none
    currentPanelOpen := false
    isDisabledThisSession := false
    isPausedManually := false
    openPanel := none
    notif := false
    workMinutes := wm
    configDefault := cfg }

/-- Reachability by enabled events from a given state. -/
inductive ReachFrom : SysState → SysState → Prop
  | refl (s : SysState) : ReachFrom s s
  | step {s₀ s : SysState} {e : Event} :
      ReachFrom s₀ s → Enabled s e → ReachFrom s₀ (handleEvent s e)

/-- A state is reachable if some process run (some persisted store and
configuration, then `activate`, then any sequence of enabled events)
produces it. -/
def Reachable (s : SysState) : Prop :=
  ∃ wm cfg, ReachFrom (activate (initState wm cfg)) s

/-! ## The break-panel title (`openBreakPanel`, lines 233–261) -/

/-- Line 233: `Math.round(breakMinutes * 60)`. -/
def totalSeconds (breakMinutes : ℚ) : ℤ :=
  round (breakMinutes * 60)

/-- Line 236: seconds when the total is under a minute, otherwise whole
minutes. -/
def displayTitle (breakMinutes : ℚ) : String :=
  if totalSeconds breakMinutes < 60 then
    toString (totalSeconds breakMinutes) ++ " сек"
  else
    toString (round breakMinutes) ++ " мин"

/-- Line 267: the countdown script starts from `totalSeconds`. -/
def countdownStart (breakMinutes : ℚ) : ℤ :=
  totalSeconds breakMinutes

/-- Lines 270–272: each one-second tick decrements the counter by one
whole second. -/
def countdownTick (seconds : ℤ) : ℤ :=
  seconds - 1

/-! ## The global invariant -/

/-- The invariant maintained by every reachable state: the `timer`
variable tracks every live timeout, at most one timeout is live, a
disabled session has nothing pending or open, a showing notification
coexists with no panel and no timeout, an open panel implies the
`currentPanelOpen` flag, a live timeout implies no open panel, and live
ids are below the fresh-id counter. -/
structure Inv (s : SysState) : Prop where
  handleTracks : ∀ t ∈ s.live, s.handle = some t.id
  atMostOne : s.live.length ≤ 1
  disabledQuiet :
    s.isDisabledThisSession = true →
      s.live = [] ∧ s.openPanel = none ∧ s.notif = false
  notifQuiet : s.notif = true → s.openPanel = none ∧ s.live = []
  openFlag : ∀ p, s.openPanel = some p → s.currentPanelOpen = true
  liveNoPanel : s.live ≠ [] → s.openPanel = none
  idsBounded : ∀ t ∈ s.live, t.id < s.nextId

theorem cancelPending_handle (s : SysState) : (cancelPending s).handle = none := by
  cases h : s.handle <;> simp [cancelPending, clearTimeoutId, h]

theorem cancelPending_live_nil (s : SysState) (h : s.live = []) :
    (cancelPending s).live = [] := by
  cases hh : s.handle <;> simp [cancelPending, clearTimeoutId, hh, h]

theorem cancelPending_openPanel (s : SysState) :
    (cancelPending s).openPanel = s.openPanel := by
  cases h : s.handle <;> simp [cancelPending, clearTimeoutId, h]

theorem cancelPending_notif (s : SysState) : (cancelPending s).notif = s.notif := by
  cases h : s.handle <;> simp [cancelPending, clearTimeoutId, h]

theorem cancelPending_disabled (s : SysState) :
    (cancelPending s).isDisabledThisSession = s.isDisabledThisSession := by
  cases h : s.handle <;> simp [cancelPending, clearTimeoutId, h]

theorem cancelPending_panelOpen (s : SysState) :
    (cancelPending s).currentPanelOpen = s.currentPanelOpen := by
  cases h : s.handle <;> simp [cancelPending, clearTimeoutId, h]

theorem cancelPending_paused (s : SysState) :
    (cancelPending s).isPausedManually = s.isPausedManually := by
  cases h : s.handle <;> simp [cancelPending, clearTimeoutId, h]

theorem cancelPending_nextId (s : SysState) : (cancelPending s).nextId = s.nextId := by
  cases h : s.handle <;> simp [cancelPending, clearTimeoutId, h]

theorem cancelPending_workMinutes (s : SysState) :
    (cancelPending s).workMinutes = s.workMinutes := by
  cases h : s.handle <;> simp [cancelPending, clearTimeoutId, h]

theorem cancelPending_configDefault (s : SysState) :
    (cancelPending s).configDefault = s.configDefault := by
  cases h : s.handle <;> simp [cancelPending, clearTimeoutId, h]

theorem cancelPending_workMinutesNow (s : SysState) :
    (cancelPending s).workMinutesNow = s.workMinutesNow := by
  unfold SysState.workMinutesNow
  rw [cancelPending_workMinutes, cancelPending_configDefault]

/-- A timeout whose id the `timer` variable holds never survives a
cancel. -/
theorem not_mem_cancelPending_of_handle {s : SysState} {t : Timeout}
    (hh : s.handle = some t.id) : t ∉ (cancelPending s).live := by
  simp [cancelPending, hh, clearTimeoutId, List.mem_filter]

theorem startWorkTimer_workMinutes (s : SysState) :
    (startWorkTimer s).workMinutes = s.workMinutes := by
  unfold startWorkTimer
  split
  · rfl
  · simp [armTimeout, cancelPending_workMinutes]

theorem cancelPending_live_sub (s : SysState) :
    ∀ t ∈ (cancelPending s).live, t ∈ s.live := by
  intro t ht
  cases h : s.handle with
  | none => simpa [cancelPending, h] using ht
  | some i =>
    simp only [cancelPending, h, clearTimeoutId, List.mem_filter] at ht
    exact ht.1

/-- A list of length at most one that contains `t` is `[t]`. -/
theorem eq_singleton_of_mem_of_len_le_one {α : Type} {l : List α} {t : α}
    (hlen : l.length ≤ 1) (ht : t ∈ l) : l = [t] := by
  match l with
  | [] => cases ht
  | [a] => simp at ht; simp [ht]
  | a :: b :: r => simp at hlen

/-- States with no live timeout, not disabled, no notification, and
`currentPanelOpen` whenever a panel is open, satisfy the invariant. -/
theorem inv_quiet (s : SysState) (hlive : s.live = [])
    (hdis : s.isDisabledThisSession = false) (hnotif : s.notif = false)
    (hpo : s.openPanel = none ∨ s.currentPanelOpen = true) : Inv s := by
  refine ⟨?_, ?_, ?_, ?_, ?_, ?_, ?_⟩ <;>
    first
    | simp [hlive, hdis, hnotif]
    | · intro p hp
        rcases hpo with h | h
        · rw [h] at hp; cases hp
        · exact h

/-- Disabled states with nothing live, open or showing satisfy the
invariant. -/
theorem inv_disabled_state (s : SysState) (hlive : s.live = [])
    (hop : s.openPanel = none) (hnotif : s.notif = false) : Inv s := by
  refine ⟨?_, ?_, ?_, ?_, ?_, ?_, ?_⟩ <;> simp [hlive, hop, hnotif]

/-- Arming a fresh timeout from a quiet state with no open panel
preserves the invariant. -/
theorem inv_armTimeout (s : SysState) (k : TimerKind) (d : ℤ)
    (hlive : s.live = []) (hop : s.openPanel = none) (hnotif : s.notif = false)
    (hdis : s.isDisabledThisSession = false) : Inv (armTimeout k d s) := by
  refine ⟨?_, ?_, ?_, ?_, ?_, ?_, ?_⟩ <;>
    simp [armTimeout, hlive, hop, hnotif, hdis]

/-- The state after `confirmSnooze` arms and then closes its panel
satisfies the invariant. -/
theorem inv_armTimeout_closed (s : SysState) (k : TimerKind) (d : ℤ)
    (hlive : s.live = []) (hnotif : s.notif = false)
    (hdis : s.isDisabledThisSession = false) :
    Inv { disposeNoHook (armTimeout k d s) with currentPanelOpen := false } := by
  refine ⟨?_, ?_, ?_, ?_, ?_, ?_, ?_⟩ <;>
    simp [armTimeout, disposeNoHook, hlive, hnotif, hdis]

/-- Setting `notif` in a quiet closed state preserves the invariant. -/
theorem inv_notif_set (s : SysState) (hlive : s.live = [])
    (hop : s.openPanel = none) (hdis : s.isDisabledThisSession = false) :
    Inv { s with notif := true } := by
  refine ⟨?_, ?_, ?_, ?_, ?_, ?_, ?_⟩ <;> simp [hlive, hop, hdis]

theorem inv_showMainMenuS (s : SysState) (hlive : s.live = [])
    (hnotif : s.notif = false) (hdis : s.isDisabledThisSession = false) :
    Inv (showMainMenuS s) := by
  apply inv_quiet <;> simp [showMainMenuS, hlive, hnotif, hdis]

theorem inv_showBreakChooserS (s : SysState) (hlive : s.live = [])
    (hnotif : s.notif = false) (hdis : s.isDisabledThisSession = false) :
    Inv (showBreakChooserS s) := by
  apply inv_quiet <;> simp [showBreakChooserS, hlive, hnotif, hdis]

theorem inv_openBreakPanelS (s : SysState) (hlive : s.live = [])
    (hnotif : s.notif = false) (hdis : s.isDisabledThisSession = false) :
    Inv (openBreakPanelS s) := by
  apply inv_quiet <;> simp [openBreakPanelS, hlive, hnotif, hdis]

theorem inv_askSnoozeOpenS (s : SysState) (hlive : s.live = [])
    (hnotif : s.notif = false) (hdis : s.isDisabledThisSession = false) :
    Inv (askSnoozeOpenS s) := by
  apply inv_quiet <;> simp [askSnoozeOpenS, hlive, hnotif, hdis]

theorem inv_showSetWorkTimeS (s : SysState) (hlive : s.live = [])
    (hnotif : s.notif = false) (hdis : s.isDisabledThisSession = false) :
    Inv (showSetWorkTimeS s) := by
  apply inv_quiet <;> simp [showSetWorkTimeS, hlive, hnotif, hdis]

/-- `startWorkTimer` preserves the invariant from a quiet state with no
open panel. -/
theorem inv_startWorkTimer (s : SysState) (hlive : s.live = [])
    (hop : s.openPanel = none) (hnotif : s.notif = false)
    (hdis : s.isDisabledThisSession = false) : Inv (startWorkTimer s) := by
  unfold startWorkTimer
  split
  · exact inv_quiet s hlive hdis hnotif (Or.inl hop)
  · exact inv_armTimeout _ _ _ (cancelPending_live_nil s hlive)
      ((cancelPending_openPanel s).trans hop)
      ((cancelPending_notif s).trans hnotif)
      ((cancelPending_disabled s).trans hdis)

/-- While a panel is open, an invariant state has no live timeout, is not
disabled, shows no notification, and has the panel flag set. -/
theorem panel_facts {s : SysState} {p : Panel} (hInv : Inv s)
    (hp : s.openPanel = some p) :
    s.live = [] ∧ s.isDisabledThisSession = false ∧ s.notif = false ∧
      s.currentPanelOpen = true := by
  refine ⟨?_, ?_, ?_, hInv.openFlag p hp⟩
  · by_contra h
    rw [hInv.liveNoPanel h] at hp
    cases hp
  · by_contra h
    rw [(hInv.disabledQuiet (by simpa using h)).2.1] at hp
    cases hp
  · by_contra h
    rw [(hInv.notifQuiet (by simpa using h)).1] at hp
    cases hp

/-- Handling any enabled event preserves the invariant. -/
theorem inv_step {s : SysState} {e : Event} (hInv : Inv s) (hEn : Enabled s e) :
    Inv (handleEvent s e) := by
  cases e with
  | timerFire t =>
      have ht : t ∈ s.live := hEn
      have hsingle := eq_singleton_of_mem_of_len_le_one hInv.atMostOne ht
      have hdis : s.isDisabledThisSession = false := by
        by_contra h
        rw [(hInv.disabledQuiet (by simpa using h)).1] at ht
        cases ht
      have hnotif : s.notif = false := by
        by_contra h
        rw [(hInv.notifQuiet (by simpa using h)).2] at ht
        cases ht
      have hop : s.openPanel = none := hInv.liveNoPanel (by rw [hsingle]; simp)
      have herase : s.live.erase t = [] := by rw [hsingle]; simp
      show Inv (fireStep s t)
      unfold fireStep
      cases hk : t.kind with
      | work =>
          dsimp only
          unfold workFireCallback
          split
          · exact inv_notif_set _
              (cancelPending_live_nil _ (by simp [herase]))
              ((cancelPending_openPanel _).trans (by simp [hop]))
              ((cancelPending_disabled _).trans (by simp [hdis]))
          · exact inv_showMainMenuS _
              (cancelPending_live_nil _ (by simp [herase]))
              ((cancelPending_notif _).trans (by simp [hnotif]))
              ((cancelPending_disabled _).trans (by simp [hdis]))
      | snooze =>
          dsimp only
          exact inv_notif_set _ (by simp [herase]) (by simp [hop]) (by simp [hdis])
  | notifClick =>
      have hn : s.notif = true := hEn
      obtain ⟨hop, hlive⟩ := hInv.notifQuiet hn
      have hdis : s.isDisabledThisSession = false := by
        by_contra h
        rw [(hInv.disabledQuiet (by simpa using h)).2.2] at hn
        cases hn
      exact inv_showMainMenuS _ (by simp [hlive]) (by simp) (by simp [hdis])
  | notifDismiss =>
      show Inv { s with notif := false }
      refine ⟨?_, ?_, ?_, ?_, ?_, ?_, ?_⟩
      · simpa using hInv.handleTracks
      · simpa using hInv.atMostOne
      · intro h
        have h2 := hInv.disabledQuiet (by simpa using h)
        exact ⟨by simpa using h2.1, by simpa using h2.2.1, rfl⟩
      · simp
      · intro p hp
        exact hInv.openFlag p (by simpa using hp)
      · intro h
        simpa using hInv.liveNoPanel (by simpa using h)
      · simpa using hInv.idsBounded
  | panelUserClose =>
      rcases Option.isSome_iff_exists.mp hEn with ⟨p, hp⟩
      obtain ⟨hlive, hdis, hnotif, _⟩ := panel_facts hInv hp
      show Inv (userClosePanel s)
      unfold userClosePanel
      rw [hp]
      cases p <;>
        exact inv_quiet _ (by simp [hlive]) (by simp [hdis]) (by simp [hnotif])
          (Or.inl (by simp))
  | panelMsg m =>
      rcases Option.isSome_iff_exists.mp hEn with ⟨p, hp⟩
      obtain ⟨hlive, hdis, hnotif, hpo⟩ := panel_facts hInv hp
      show Inv (handlePanelMsg s m)
      unfold handlePanelMsg
      rw [hp]
      cases p with
      | mainMenu =>
          unfold handleMainMenuMsg
          cases hc : m.command with
          | none => exact hInv
          | some c =>
              dsimp only
              split_ifs
              · exact inv_showBreakChooserS _ (by simp [disposeWithHook, hlive])
                  (by simp [disposeWithHook, hnotif]) (by simp [disposeWithHook, hdis])
              · exact inv_startWorkTimer _ (by simp [disposeWithHook, hlive])
                  (by simp [disposeWithHook]) (by simp [disposeWithHook, hnotif])
                  (by simp [disposeWithHook, hdis])
              · exact inv_askSnoozeOpenS _ (by simp [disposeWithHook, hlive])
                  (by simp [disposeWithHook, hnotif]) (by simp [disposeWithHook, hdis])
              · exact inv_disabled_state _
                  (cancelPending_live_nil _ (by simp [disposeWithHook, hlive]))
                  ((cancelPending_openPanel _).trans (by simp [disposeWithHook]))
                  ((cancelPending_notif _).trans (by simp [disposeWithHook, hnotif]))
              · exact inv_showSetWorkTimeS _ (by simp [disposeWithHook, hlive])
                  (by simp [disposeWithHook, hnotif]) (by simp [disposeWithHook, hdis])
              · exact hInv
      | breakChooser =>
          unfold handleBreakChooserMsg
          cases hc : m.command with
          | none => exact hInv
          | some c =>
              dsimp only
              split_ifs
              · exact inv_openBreakPanelS _ (by simp [disposeWithHook, hlive])
                  (by simp [disposeWithHook, hnotif]) (by simp [disposeWithHook, hdis])
              · exact inv_showMainMenuS _ (by simp [disposeWithHook, hlive])
                  (by simp [disposeWithHook, hnotif]) (by simp [disposeWithHook, hdis])
              · exact hInv
      | breakPanel =>
          unfold handleBreakPanelMsg
          cases hc : m.command with
          | none => exact hInv
          | some c =>
              dsimp only
              split_ifs
              · exact inv_startWorkTimer _ (by simp [disposeWithHook, hlive])
                  (by simp [disposeWithHook]) (by simp [disposeWithHook, hnotif])
                  (by simp [disposeWithHook, hdis])
              · exact hInv
      | snoozeChooser =>
          unfold handleSnoozeMsg
          cases hc : m.command with
          | none => exact hInv
          | some c =>
              dsimp only
              split_ifs
              · exact inv_armTimeout_closed _ _ _
                  (cancelPending_live_nil _ hlive)
                  ((cancelPending_notif _).trans hnotif)
                  ((cancelPending_disabled _).trans hdis)
              · exact inv_showMainMenuS _ (by simp [disposeNoHook, hlive])
                  (by simp [disposeNoHook, hnotif]) (by simp [disposeNoHook, hdis])
              · exact hInv
      | setWorkTime =>
          unfold handleSetWorkTimeMsg
          cases hc : m.command with
          | none => exact hInv
          | some c =>
              dsimp only
              split_ifs
              · have hguard : startWorkTimer
                    { cancelPending { s with workMinutes := some m.minutes } with
                        isPausedManually := false } =
                    { cancelPending { s with workMinutes := some m.minutes } with
                        isPausedManually := false } := by
                  unfold startWorkTimer
                  rw [if_pos]
                  rw [cancelPending_panelOpen]
                  simp [hpo]
                rw [hguard]
                exact inv_showMainMenuS _
                  (by simp [disposeWithHook,
                        cancelPending_live_nil _ (show ({ s with workMinutes := some m.minutes} : SysState).live = [] by simp [hlive])])
                  (by simp [disposeWithHook, cancelPending_notif, hnotif])
                  (by simp [disposeWithHook, cancelPending_disabled, hdis])
              · exact hInv

/-- A fresh activation satisfies the invariant. -/
theorem inv_activate_init (wm : Option JSVal) (cfg : Option ℚ) :
    Inv (activate (initState wm cfg)) := by
  unfold activate
  have h1 : (activateInitStore (initState wm cfg)).isDisabledThisSession = false := by
    unfold activateInitStore initState
    split <;> simp
  rw [if_pos h1]
  apply inv_startWorkTimer <;>
    · unfold activateInitStore initState
      split <;> simp

/-- Every reachable state satisfies the invariant. -/
theorem reachable_inv {s : SysState} (h : Reachable s) : Inv s := by
  obtain ⟨wm, cfg, hr⟩ := h
  induction hr with
  | refl => exact inv_activate_init wm cfg
  | step hr hEn ih => exact inv_step ih hEn

/-- In an invariant state with the session disabled, no event is enabled
at all: nothing is live, open or showing. -/
theorem no_event_when_disabled {s : SysState} (hInv : Inv s)
    (hdis : s.isDisabledThisSession = true) (e : Event) : ¬ Enabled s e := by
  obtain ⟨hlive, hop, hnotif⟩ := hInv.disabledQuiet hdis
  cases e <;> simp [Enabled, hlive, hop, hnotif]

/-- From a disabled invariant state, event reachability goes nowhere. -/
theorem reachfrom_fixed_of_disabled {s s' : SysState} (hInv : Inv s)
    (hdis : s.isDisabledThisSession = true) (h : ReachFrom s s') : s' = s := by
  induction h with
  | refl => rfl
  | step hr hEn ih =>
      exact absurd (ih ▸ hEn) (no_event_when_disabled hInv hdis _)

/-! ## A concrete run

A process started with `workMinutes = 1` stored: `activate` arms the work
timer, the timer fires, the user clicks the notification, and from the
main menu picks snooze or disable.  These states witness reachability in
the claims below. -/

/-- The state right after `activate` with `1` stored: work timer armed. -/
def armedState : SysState :=
  { nextId := 1
    live := [⟨0, .work, workDelayMs 1⟩]
    handle := some 0
    currentPanelOpen := false
    isDisabledThisSession := false
    isPausedManually := false
    openPanel := none
    notif := false
    workMinutes := some (.num 1)
    configDefault := none }

/-- After the work timer fires with no panel open: notification showing. -/
def notifState : SysState :=
  { armedState with live := [], handle := none, notif := true }

/-- After the user clicks 'Выбрать перерыв': the main menu is open and
both `currentPanelOpen` and `isPausedManually` are set. -/
def menuState : SysState :=
  { notifState with
      notif := false
      currentPanelOpen := true
      isPausedManually := true
      openPanel := some .mainMenu }

/-- After picking `snoozeBreak` in the menu: the snooze chooser is open,
and `isPausedManually` is still `true` (nothing on this path resets it). -/
def snoozePanelState : SysState :=
  { menuState with openPanel := some .snoozeChooser }

/-- After `confirmSnooze` with 5 minutes: the snooze timer is armed and
the chooser closed. -/
def snoozedState : SysState :=
  { snoozePanelState with
      nextId := 2
      live := [⟨1, .snooze, snoozeDelayMs 5⟩]
      handle := some 1
      currentPanelOpen := false
      openPanel := none }

/-- After picking `disablePlugin` in the menu. -/
def disabledState : SysState :=
  { menuState with
      currentPanelOpen := false
      isDisabledThisSession := true
      openPanel := none }

theorem activate_armed :
    activate (initState (some (.num 1)) none) = armedState := by
  simp [activate, activateInitStore, initState, jsFalsy, startWorkTimer,
    cancelPending, armTimeout, SysState.workMinutesNow, getWorkMinutes,
    armedState]

theorem fire_notif :
    handleEvent armedState (.timerFire ⟨0, .work, workDelayMs 1⟩) = notifState := by
  simp [handleEvent, fireStep, workFireCallback, cancelPending, clearTimeoutId,
    armedState, notifState]

theorem click_menu : handleEvent notifState .notifClick = menuState := by
  simp [handleEvent, showMainMenuS, notifState, menuState, armedState]

theorem menu_snooze :
    handleEvent menuState (.panelMsg ⟨some "snoozeBreak", .undef⟩) =
      snoozePanelState := by
  simp [handleEvent, handlePanelMsg, handleMainMenuMsg, askSnoozeOpenS,
    disposeWithHook, menuState, notifState, armedState, snoozePanelState]

theorem menu_disable :
    handleEvent menuState (.panelMsg ⟨some "disablePlugin", .undef⟩) =
      disabledState := by
  simp [handleEvent, handlePanelMsg, handleMainMenuMsg, cancelPending,
    disposeWithHook, menuState, notifState, armedState, disabledState]

theorem snooze_confirm :
    handleEvent snoozePanelState (.panelMsg ⟨some "confirmSnooze", .num 5⟩) =
      snoozedState := by
  simp [handleEvent, handlePanelMsg, handleSnoozeMsg, JSVal.isNumber,
    armTimeout, cancelPending, disposeNoHook, snoozePanelState, menuState,
    notifState, armedState, snoozedState]

theorem snooze_fire :
    handleEvent snoozedState (.timerFire ⟨1, .snooze, snoozeDelayMs 5⟩) =
      { snoozedState with live := [], notif := true } := by
  simp [handleEvent, fireStep, snoozeFireCallback, snoozedState,
    snoozePanelState, menuState, notifState, armedState]

theorem reach_armed :
    ReachFrom (activate (initState (some (.num 1)) none)) armedState := by
  rw [activate_armed]
  exact ReachFrom.refl _

theorem reach_notif :
    ReachFrom (activate (initState (some (.num 1)) none)) notifState := by
  have h := ReachFrom.step reach_armed
    (show Enabled armedState (.timerFire ⟨0, .work, workDelayMs 1⟩) by
      simp [Enabled, armedState])
  rwa [fire_notif] at h

theorem reach_menu :
    ReachFrom (activate (initState (some (.num 1)) none)) menuState := by
  have h := ReachFrom.step reach_notif
    (show Enabled notifState .notifClick by simp [Enabled, notifState])
  rwa [click_menu] at h

theorem reach_snoozePanel :
    ReachFrom (activate (initState (some (.num 1)) none)) snoozePanelState := by
  have h := ReachFrom.step reach_menu
    (show Enabled menuState (.panelMsg ⟨some "snoozeBreak", .undef⟩) by
      simp [Enabled, menuState])
  rwa [menu_snooze] at h

theorem reach_snoozed :
    ReachFrom (activate (initState (some (.num 1)) none)) snoozedState := by
  have h := ReachFrom.step reach_snoozePanel
    (show Enabled snoozePanelState (.panelMsg ⟨some "confirmSnooze", .num 5⟩) by
      simp [Enabled, snoozePanelState])
  rwa [snooze_confirm] at h

theorem reach_disabled :
    ReachFrom (activate (initState (some (.num 1)) none)) disabledState := by
  have h := ReachFrom.step reach_menu
    (show Enabled menuState (.panelMsg ⟨some "disablePlugin", .undef⟩) by
      simp [Enabled, menuState])
  rwa [menu_disable] at h

/-! ## The claims -/

/-- C1, counterexample: the claim that every operation that arms a timer
does so only when `panelOpen = false` and `paused = false` is false for
the snooze confirmation: `snoozePanelState` is reachable, has
`currentPanelOpen = true` and `isPausedManually = true` and no pending
timer, yet handling `confirmSnooze` there arms one. -/
theorem c1_snooze_arm_violates_guard :
    Reachable snoozePanelState ∧
    snoozePanelState.currentPanelOpen = true ∧
    snoozePanelState.isPausedManually = true ∧
    snoozePanelState.live = [] ∧
    (handleEvent snoozePanelState
        (.panelMsg ⟨some "confirmSnooze", .num 5⟩)).live.length = 1 := by
  refine ⟨⟨some (.num 1), none, reach_snoozePanel⟩, rfl, rfl, rfl, ?_⟩
  rw [snooze_confirm]
  rfl

/-- C1, amended: the work-timer start (`startWorkTimer`) arms only when
`currentPanelOpen`, `isDisabledThisSession` and `isPausedManually` are
all `false` (otherwise it is a no-op); the snooze confirmation, by
contrast, arms its timer unconditionally, whatever the three flags are. -/
theorem c1_arm_guard_amended :
    (∀ s : SysState,
        (s.currentPanelOpen || s.isDisabledThisSession || s.isPausedManually) =
            true →
          startWorkTimer s = s) ∧
    (∀ (s : SysState) (t : Timeout), t ∈ (startWorkTimer s).live →
        t ∉ s.live →
        s.currentPanelOpen = false ∧ s.isDisabledThisSession = false ∧
          s.isPausedManually = false) ∧
    (∀ (s : SysState) (v : ℚ),
        (⟨s.nextId, .snooze, snoozeDelayMs v⟩ : Timeout) ∈
          (handleSnoozeMsg s ⟨some "confirmSnooze", .num v⟩).live) := by
  refine ⟨?_, ?_, ?_⟩
  · intro s h
    unfold startWorkTimer
    rw [if_pos h]
  · intro s t hmem hnot
    by_cases hg :
      (s.currentPanelOpen || s.isDisabledThisSession || s.isPausedManually) = true
    · rw [startWorkTimer, if_pos hg] at hmem
      exact absurd hmem hnot
    · simp only [Bool.or_eq_true, not_or, Bool.not_eq_true] at hg
      exact ⟨hg.1.1, hg.1.2, hg.2⟩
  · intro s v
    simp [handleSnoozeMsg, JSVal.isNumber, disposeNoHook, armTimeout,
      cancelPending_nextId]

/-- C1, witness: the guard blocks `startWorkTimer` at the open main menu,
and the snooze confirmation arms at the reachable snooze-panel state. -/
theorem c1_arm_guard_amended_witness :
    startWorkTimer menuState = menuState ∧
    (⟨snoozePanelState.nextId, .snooze, snoozeDelayMs 5⟩ : Timeout) ∈
      (handleSnoozeMsg snoozePanelState ⟨some "confirmSnooze", .num 5⟩).live :=
  ⟨c1_arm_guard_amended.1 menuState rfl,
   c1_arm_guard_amended.2.2 snoozePanelState 5⟩

/-- C2: in every reachable state at most one timeout is pending, and both
arm operations (the guarded work-timer start and the snooze confirmation)
remove any previously pending timeout. -/
theorem c2_at_most_one_pending :
    (∀ s : SysState, Reachable s → s.live.length ≤ 1) ∧
    (∀ s : SysState, Reachable s →
        ∀ t ∈ s.live, t ∉ (startWorkTimer s).live ∨ startWorkTimer s = s) ∧
    (∀ s : SysState, Reachable s → ∀ v : ℚ, ∀ t ∈ s.live,
        t ∉ (handleSnoozeMsg s ⟨some "confirmSnooze", .num v⟩).live) := by
  refine ⟨?_, ?_, ?_⟩
  · intro s hr
    exact (reachable_inv hr).atMostOne
  · intro s hr t ht
    have hInv := reachable_inv hr
    by_cases hg :
      (s.currentPanelOpen || s.isDisabledThisSession || s.isPausedManually) = true
    · right
      rw [startWorkTimer, if_pos hg]
    · left
      rw [startWorkTimer, if_neg hg]
      intro hmem
      have hmem2 : t ∈ (cancelPending s).live ∨
          t = ⟨(cancelPending s).nextId, TimerKind.work,
                workDelayMs (cancelPending s).workMinutesNow⟩ := by
        simpa [armTimeout] using hmem
      rcases hmem2 with h | h
      · exact not_mem_cancelPending_of_handle (hInv.handleTracks t ht) h
      · have hid : t.id = s.nextId := by rw [h, cancelPending_nextId]
        exact absurd (hid ▸ hInv.idsBounded t ht) (lt_irrefl _)
  · intro s hr v t ht
    have hInv := reachable_inv hr
    intro hmem
    have hmem2 : t ∈ (cancelPending s).live ∨
        t = ⟨(cancelPending s).nextId, TimerKind.snooze, snoozeDelayMs v⟩ := by
      simpa [handleSnoozeMsg, JSVal.isNumber, disposeNoHook, armTimeout]
        using hmem
    rcases hmem2 with h | h
    · exact not_mem_cancelPending_of_handle (hInv.handleTracks t ht) h
    · have hid : t.id = s.nextId := by rw [h, cancelPending_nextId]
      exact absurd (hid ▸ hInv.idsBounded t ht) (lt_irrefl _)

/-- C2, witness: a freshly activated process with the snooze timer armed
has exactly one pending timeout, and re-arming removes it. -/
theorem c2_at_most_one_pending_witness :
    snoozedState.live.length ≤ 1 ∧
    (⟨1, .snooze, snoozeDelayMs 5⟩ : Timeout) ∉
      (handleSnoozeMsg snoozedState ⟨some "confirmSnooze", .num 5⟩).live := by
  constructor
  · exact c2_at_most_one_pending.1 snoozedState
      ⟨some (.num 1), none, reach_snoozed⟩
  · exact c2_at_most_one_pending.2.2 snoozedState
      ⟨some (.num 1), none, reach_snoozed⟩ 5 _ (by simp [snoozedState])

/-- C3: `getWorkMinutes` returns the stored value exactly when it is a
number strictly greater than zero, and otherwise (absent, zero, negative,
or non-numeric) returns the configured default, which is `30` when no
default is configured. -/
theorem c3_getWorkMinutes_spec :
    (∀ (v : ℚ) (cfg : Option ℚ), 0 < v →
        getWorkMinutes (some (.num v)) cfg = v) ∧
    (∀ (v : ℚ) (cfg : Option ℚ), ¬ 0 < v →
        getWorkMinutes (some (.num v)) cfg = cfg.getD 30) ∧
    (∀ cfg : Option ℚ, getWorkMinutes none cfg = cfg.getD 30) ∧
    (∀ (x : String) (cfg : Option ℚ),
        getWorkMinutes (some (.str x)) cfg = cfg.getD 30) ∧
    (∀ cfg : Option ℚ, getWorkMinutes (some .undef) cfg = cfg.getD 30) ∧
    (∀ v : ℚ, 0 < v → getWorkMinutes (some (.num v)) none = v) ∧
    getWorkMinutes none none = 30 := by
  refine ⟨?_, ?_, ?_, ?_, ?_, ?_, rfl⟩
  · intro v cfg hv
    simp [getWorkMinutes, hv]
  · intro v cfg hv
    simp [getWorkMinutes, hv]
  · intro cfg; rfl
  · intro x cfg; rfl
  · intro cfg; rfl
  · intro v hv
    simp [getWorkMinutes, hv]

/-- C3, witness: stored `45` yields `45`; stored `0` yields the default
`30`. -/
theorem c3_getWorkMinutes_spec_witness :
    getWorkMinutes (some (.num 45)) none = 45 ∧
    getWorkMinutes (some (.num 0)) none = (none : Option ℚ).getD 30 :=
  ⟨c3_getWorkMinutes_spec.1 45 none (by norm_num),
   c3_getWorkMinutes_spec.2.1 0 none (by norm_num)⟩

/-- C4: once a reachable state is disabled, no sequence of session events
leads anywhere else — in particular no timer is ever pending again until
the flags are reset by `deactivate` or a process restart (neither of
which is a session event). -/
theorem c4_disabled_forever :
    ∀ s s' : SysState, Reachable s → s.isDisabledThisSession = true →
      ReachFrom s s' →
      s'.live = [] ∧ s'.isDisabledThisSession = true := by
  intro s s' hr hdis hrf
  have hInv := reachable_inv hr
  have heq := reachfrom_fixed_of_disabled hInv hdis hrf
  rw [heq]
  exact ⟨(hInv.disabledQuiet hdis).1, hdis⟩

/-- C4, witness: the concrete reachable disabled state has no pending
timer and stays disabled. -/
theorem c4_disabled_forever_witness :
    disabledState.live = [] ∧ disabledState.isDisabledThisSession = true :=
  c4_disabled_forever disabledState disabledState
    ⟨some (.num 1), none, reach_disabled⟩ rfl (ReachFrom.refl _)

/-- A state in which only the manual-pause flag is set, as `deactivate`
may encounter after a panel interaction. -/
def pausedState : SysState :=
  { initState none none with isPausedManually := true }

/-- C5: `deactivate` cancels the pending timer and resets
`currentPanelOpen` and `isDisabledThisSession`, but — against the claim
and the source's own doc comment — leaves `isPausedManually = true`. -/
theorem c5_deactivate_keeps_paused :
    (deactivate pausedState).isPausedManually = true ∧
    (deactivate pausedState).currentPanelOpen = false ∧
    (deactivate pausedState).isDisabledThisSession = false ∧
    (deactivate pausedState).live = [] ∧
    (deactivate pausedState).handle = none := by
  refine ⟨rfl, rfl, rfl, rfl, rfl⟩

/-- C6, counterexample: when the snooze timer fires at the reachable
state `snoozedState`, its callback does not clear the shared `timer`
handle — the handle still holds the fired timeout's id afterwards. -/
theorem c6_snooze_fire_keeps_handle :
    Reachable snoozedState ∧
    snoozedState.live = [⟨1, .snooze, snoozeDelayMs 5⟩] ∧
    (handleEvent snoozedState
        (.timerFire ⟨1, .snooze, snoozeDelayMs 5⟩)).handle = some 1 := by
  refine ⟨⟨some (.num 1), none, reach_snoozed⟩, rfl, ?_⟩
  rw [snooze_fire]
  rfl

/-- C6, amended: when a pending timer fires, the work timer's callback
clears the shared `timer` handle before invoking the next stage, but the
snooze timer's callback leaves the handle untouched and invokes the next
stage directly. -/
theorem c6_fire_clears_handle_amended :
    (∀ (s : SysState) (t : Timeout), t.kind = .work →
        (fireStep s t).handle = none) ∧
    (∀ (s : SysState) (t : Timeout), t.kind = .snooze →
        (fireStep s t).handle = s.handle) := by
  constructor
  · intro s t ht
    unfold fireStep
    rw [ht]
    dsimp only
    unfold workFireCallback
    split
    · exact cancelPending_handle _
    · simp [showMainMenuS, cancelPending_handle]
  · intro s t ht
    unfold fireStep
    rw [ht]
    rfl

/-- C6, witness: the work fire at `armedState` clears the handle; the
snooze fire at `snoozedState` leaves it as it was. -/
theorem c6_fire_clears_handle_amended_witness :
    (fireStep armedState ⟨0, .work, workDelayMs 1⟩).handle = none ∧
    (fireStep snoozedState ⟨1, .snooze, snoozeDelayMs 5⟩).handle =
      snoozedState.handle :=
  ⟨c6_fire_clears_handle_amended.1 armedState ⟨0, .work, workDelayMs 1⟩ rfl,
   c6_fire_clears_handle_amended.2 snoozedState ⟨1, .snooze, snoozeDelayMs 5⟩ rfl⟩

/-- C7: a panel message with no `command` field, or a
`breakDurationSelected` / `confirmSnooze` / `workTimeSelected` message
whose `minutes` field is not a number, is ignored entirely: the whole
state — flags, timers, open panel, persisted store — is unchanged. -/
theorem c7_malformed_ignored :
    ∀ (s : SysState) (m : Msg),
      (m.command = none ∨
        ((m.command = some "breakDurationSelected" ∨
            m.command = some "confirmSnooze" ∨
            m.command = some "workTimeSelected") ∧
          m.minutes.isNumber = false)) →
      handleEvent s (.panelMsg m) = s := by
  intro s m h
  show handlePanelMsg s m = s
  cases hp : s.openPanel with
  | none => simp [handlePanelMsg, hp]
  | some p =>
      rcases h with hnone | ⟨hcmd, hnum⟩
      · cases p <;>
          simp [handlePanelMsg, hp, handleMainMenuMsg, handleBreakChooserMsg,
            handleBreakPanelMsg, handleSnoozeMsg, handleSetWorkTimeMsg, hnone]
      · rcases hcmd with h1 | h1 | h1 <;> cases p <;>
          simp [handlePanelMsg, hp, handleMainMenuMsg, handleBreakChooserMsg,
            handleBreakPanelMsg, handleSnoozeMsg, handleSetWorkTimeMsg, h1,
            hnum]

/-- C7, witness: a `confirmSnooze` with a string payload at the open main
menu, and a message with no command at the snooze chooser, change
nothing. -/
theorem c7_malformed_ignored_witness :
    handleEvent menuState (.panelMsg ⟨some "confirmSnooze", .str "5"⟩) =
        menuState ∧
    handleEvent snoozePanelState (.panelMsg ⟨none, .num 5⟩) =
      snoozePanelState :=
  ⟨c7_malformed_ignored menuState _ (Or.inr ⟨Or.inr (Or.inl rfl), rfl⟩),
   c7_malformed_ignored snoozePanelState _ (Or.inl rfl)⟩

/-- C8: the break-panel title shows the remaining time in seconds when
the rounded total is under sixty seconds and in whole rounded minutes
otherwise, while the countdown itself starts from the whole-second total
and ticks down one whole second at a time. -/
theorem c8_break_title :
    ∀ m : ℚ,
      (totalSeconds m < 60 →
        displayTitle m = toString (totalSeconds m) ++ " сек") ∧
      (60 ≤ totalSeconds m →
        displayTitle m = toString (round m) ++ " мин") ∧
      countdownStart m = totalSeconds m ∧
      ∀ sec : ℤ, countdownTick sec = sec - 1 := by
  intro m
  refine ⟨?_, ?_, rfl, fun sec => rfl⟩
  · intro h
    unfold displayTitle
    rw [if_pos h]
  · intro h
    unfold displayTitle
    rw [if_neg (not_lt.mpr h)]

/-- C8, witness: a 10-second break (`1/6` of a minute) is titled
"10 сек" and a 5-minute break is titled "5 мин". -/
theorem c8_break_title_witness :
    displayTitle (1/6 : ℚ) = "10 сек" ∧ displayTitle (5 : ℚ) = "5 мин" := by
  have h10 : totalSeconds (1/6 : ℚ) = 10 := by
    norm_num [totalSeconds, round_eq]
  have h300 : totalSeconds (5 : ℚ) = 300 := by
    norm_num [totalSeconds, round_eq]
  constructor
  · have h := (c8_break_title (1/6 : ℚ)).1 (by rw [h10]; norm_num)
    rw [h, h10]
    rfl
  · have h := (c8_break_title (5 : ℚ)).2.1 (by rw [h300]; norm_num)
    rw [h, show round (5 : ℚ) = 5 by norm_num [round_eq]]
    rfl

/-- C9: any timeout newly armed by the work-timer start carries the delay
`max 1000 (round (minutes * 60 * 1000))` for the stored work minutes, any
timeout newly armed by the snooze confirmation carries the same formula
for the chosen minutes, and neither delay is ever below the 1000 ms
floor. -/
theorem c9_arm_delay :
    ∀ s : SysState,
      (∀ t : Timeout, t ∈ (startWorkTimer s).live → t ∈ s.live ∨
        (t.delayMs = max 1000 (round (s.workMinutesNow * 60 * 1000)) ∧
          1000 ≤ t.delayMs)) ∧
      (∀ (v : ℚ) (t : Timeout),
        t ∈ (handleSnoozeMsg s ⟨some "confirmSnooze", .num v⟩).live →
          t ∈ s.live ∨
          (t.delayMs = max 1000 (round (v * 60 * 1000)) ∧
            1000 ≤ t.delayMs)) := by
  intro s
  constructor
  · intro t hmem
    by_cases hg :
      (s.currentPanelOpen || s.isDisabledThisSession || s.isPausedManually) = true
    · rw [startWorkTimer, if_pos hg] at hmem
      exact Or.inl hmem
    · rw [startWorkTimer, if_neg hg] at hmem
      have hmem2 : t ∈ (cancelPending s).live ∨
          t = ⟨(cancelPending s).nextId, TimerKind.work,
                workDelayMs (cancelPending s).workMinutesNow⟩ := by
        simpa [armTimeout] using hmem
      rcases hmem2 with h | h
      · exact Or.inl (cancelPending_live_sub s t h)
      · refine Or.inr ⟨?_, ?_⟩
        · rw [h]
          show workDelayMs (cancelPending s).workMinutesNow = _
          rw [cancelPending_workMinutesNow]
          rfl
        · rw [h]
          exact le_max_left _ _
  · intro v t hmem
    have hmem2 : t ∈ (cancelPending s).live ∨
        t = ⟨(cancelPending s).nextId, TimerKind.snooze, snoozeDelayMs v⟩ := by
      simpa [handleSnoozeMsg, JSVal.isNumber, disposeNoHook, armTimeout]
        using hmem
    rcases hmem2 with h | h
    · exact Or.inl (cancelPending_live_sub s t h)
    · refine Or.inr ⟨by rw [h]; rfl, by rw [h]; exact le_max_left _ _⟩

/-- C9, witness: the work timeout armed at a fresh default store (30
stored minutes) satisfies the delay formula and the floor. -/
theorem c9_arm_delay_witness :
    (⟨0, TimerKind.work, workDelayMs ((initState none none).workMinutesNow)⟩ :
        Timeout) ∈ (initState none none).live ∨
      ((⟨0, TimerKind.work,
            workDelayMs ((initState none none).workMinutesNow)⟩ :
          Timeout).delayMs =
          max 1000 (round ((initState none none).workMinutesNow * 60 * 1000)) ∧
        1000 ≤ (⟨0, TimerKind.work,
            workDelayMs ((initState none none).workMinutesNow)⟩ :
          Timeout).delayMs) :=
  (c9_arm_delay (initState none none)).1 _
    (by simp [startWorkTimer, initState, cancelPending, armTimeout])

/-- The store of a process in which the user earlier persisted a work
time of `0` minutes. -/
def zeroStoredState : SysState := initState (some (.num 0)) none

/-- C10, counterexample: `activate` writes the persisted `workMinutes`
even though a value (`0`) is stored, because the source's `!stored` test
treats the stored `0` as falsy; so "the only other write … when no value
is stored" is false. -/
theorem c10_activate_overwrites_stored_zero :
    zeroStoredState.workMinutes = some (.num 0) ∧
    (activate zeroStoredState).workMinutes = some (.num (166/1000)) ∧
    (activate zeroStoredState).workMinutes ≠ zeroStoredState.workMinutes := by
  refine ⟨rfl, ?_, ?_⟩
  · simp [activate, activateInitStore, zeroStoredState, initState, jsFalsy,
      startWorkTimer_workMinutes]
  · simp [activate, activateInitStore, zeroStoredState, initState, jsFalsy,
      startWorkTimer_workMinutes]

/-- A session event writes the persisted `workMinutes` store: this is
exactly a `workTimeSelected` message with numeric minutes delivered to
the open set-work-time panel. -/
def writesWorkTime (s : SysState) : Event → Prop
  | .panelMsg m =>
      s.openPanel = some .setWorkTime ∧ m.command = some "workTimeSelected" ∧
        m.minutes.isNumber = true
  | _ => False

/-- C10, amended: among the session events, only a `workTimeSelected`
message with numeric minutes at the set-work-time panel writes the
persisted `workMinutes`; every other event leaves it unchanged.  The
other write is the initialization in `activate`, which happens exactly
when the stored value is JS-falsy — absent or `0` — not only when
absent. -/
theorem c10_frame_amended :
    (∀ (s : SysState) (e : Event), ¬ writesWorkTime s e →
        (handleEvent s e).workMinutes = s.workMinutes) ∧
    (∀ s : SysState, jsFalsy s.workMinutes = false →
        (activate s).workMinutes = s.workMinutes) ∧
    (∀ s : SysState, jsFalsy s.workMinutes = true →
        (activate s).workMinutes =
          some (.num (s.configDefault.getD (166/1000)))) := by
  refine ⟨?_, ?_, ?_⟩
  · intro s e hw
    cases e with
    | timerFire t =>
        show (fireStep s t).workMinutes = s.workMinutes
        unfold fireStep
        cases ht : t.kind with
        | work =>
            dsimp only
            unfold workFireCallback
            split
            · simp [cancelPending_workMinutes]
            · simp [showMainMenuS, cancelPending_workMinutes]
        | snooze =>
            dsimp only
            simp [snoozeFireCallback]
    | notifClick => rfl
    | notifDismiss => rfl
    | panelUserClose =>
        show (userClosePanel s).workMinutes = s.workMinutes
        unfold userClosePanel
        cases hp : s.openPanel with
        | none => rfl
        | some p => cases p <;> rfl
    | panelMsg m =>
        show (handlePanelMsg s m).workMinutes = s.workMinutes
        unfold handlePanelMsg
        cases hp : s.openPanel with
        | none => rfl
        | some p =>
            cases p with
            | mainMenu =>
                unfold handleMainMenuMsg
                cases m.command with
                | none => rfl
                | some c =>
                    dsimp only
                    split_ifs <;>
                      simp [showBreakChooserS, askSnoozeOpenS,
                        showSetWorkTimeS, disposeWithHook,
                        startWorkTimer_workMinutes, cancelPending_workMinutes]
            | breakChooser =>
                unfold handleBreakChooserMsg
                cases m.command with
                | none => rfl
                | some c =>
                    dsimp only
                    split_ifs <;>
                      simp [openBreakPanelS, showMainMenuS, disposeWithHook]
            | breakPanel =>
                unfold handleBreakPanelMsg
                cases m.command with
                | none => rfl
                | some c =>
                    dsimp only
                    split_ifs <;>
                      simp [disposeWithHook, startWorkTimer_workMinutes]
            | snoozeChooser =>
                unfold handleSnoozeMsg
                cases m.command with
                | none => rfl
                | some c =>
                    dsimp only
                    split_ifs <;>
                      simp [disposeNoHook, showMainMenuS, armTimeout,
                        cancelPending_workMinutes]
            | setWorkTime =>
                unfold handleSetWorkTimeMsg
                cases hc : m.command with
                | none => rfl
                | some c =>
                    dsimp only
                    split_ifs with hcond
                    · have hparts := (Bool.and_eq_true _ _).mp hcond
                      have hce : c = "workTimeSelected" := by
                        simpa using hparts.1
                      exact absurd ⟨hp, by rw [hc, hce], hparts.2⟩ hw
                    · rfl
  · intro s hfalse
    unfold activate
    split
    · rw [startWorkTimer_workMinutes]
      simp [activateInitStore, hfalse]
    · simp [activateInitStore, hfalse]
  · intro s htrue
    unfold activate
    split
    · rw [startWorkTimer_workMinutes]
      simp [activateInitStore, htrue]
    · simp [activateInitStore, htrue]

/-- C10, witness: skipping a break at the open main menu leaves the store
unchanged, and `activate` over a stored `45` writes nothing. -/
theorem c10_frame_amended_witness :
    (handleEvent menuState (.panelMsg ⟨some "skipBreak", .undef⟩)).workMinutes =
        menuState.workMinutes ∧
    (activate (initState (some (.num 45)) none)).workMinutes =
      (initState (some (.num 45)) none).workMinutes := by
  constructor
  · exact c10_frame_amended.1 menuState _ (by simp [writesWorkTime, menuState,
      notifState, armedState])
  · exact c10_frame_amended.2.1 _ (by simp [initState, jsFalsy])

end BreakReminder
